import Mathlib

/-!
Shallow embedding of the engine selection and fallback orchestration
subsystem of the exomind-model repository (`src/asr/selector.py` and
`src/asr/factory.py`), together with theorems settling the spec claims.

Numeric scores are modelled over `ℚ` (the Python source uses floats with
exact decimal literals; all claim-relevant arithmetic is exact decimal
arithmetic). Python dictionaries are modelled as lookup functions
returning `Option`, and Python's stable `list.sort(key=..., reverse=True)`
is modelled with the stable `List.insertionSort` under the reversed
comparison (a stable sort under a total preorder has a unique output).
-/

namespace Exomind

/-- The `Scenario` enum from selector.py. -/
inductive Scenario where
  | REALTIME
  | TRANSCRIPTION
  | MEETING
  | MULTILINGUAL
  | COMMAND
  | GENERAL
deriving DecidableEq, Repr

/-- The `AudioContext` dataclass from selector.py (`audio_path` is modelled as an
optional string; it is never consulted by the selection logic). -/
structure AudioContext where
  audio_path : Option String := none
  duration_seconds : ℚ := 0
  estimated_speakers : ℤ := 1
  language_hint : String := "auto"
  is_streaming : Bool := false
  priority : String := "balanced"
deriving DecidableEq, Repr

/-- The `EngineScore` dataclass from selector.py. -/
structure EngineScore where
  engine_name : String
  total_score : ℚ := 0
  latency_score : ℚ := 0
  accuracy_score : ℚ := 0
  resource_score : ℚ := 0
  feature_score : ℚ := 0
  reasons : List String := []
deriving DecidableEq, Repr

/-- The `SelectionResult` dataclass from selector.py. -/
structure SelectionResult where
  recommended_engine : String
  fallback_engine : String
  scenario : Scenario
  score : EngineScore
  confidence : ℚ := 0
  alternatives : List String := []
deriving DecidableEq, Repr

/-- One entry of the `ENGINE_CAPABILITIES` dictionary. -/
structure EngineCapability where
  latency : ℚ
  accuracy : ℚ
  resource : ℚ
  streaming : Bool
  diarization : Bool
  languages : ℤ
  model_names : List String
deriving DecidableEq, Repr

/-- The table `EngineSelector.ENGINE_CAPABILITIES`, as a lookup function (the Python
dict maps engine names to capability records; absent keys give `none`). -/
def ENGINE_CAPABILITIES (engine : String) : Option EngineCapability :=
  if engine = "nano-2512" then
    some { latency := 95, accuracy := 80, resource := 70, streaming := true,
           diarization := false, languages := 31,
           model_names := ["nano-2512", "nano-mlt"] }
  else if engine = "paraformer-zh" then
    some { latency := 50, accuracy := 90, resource := 60, streaming := false,
           diarization := true, languages := 1,
           model_names := ["paraformer-zh"] }
  else if engine = "sensevoice" then
    some { latency := 40, accuracy := 95, resource := 50, streaming := false,
           diarization := false, languages := 5,
           model_names := ["sensevoice"] }
  else if engine = "moss" then
    some { latency := 30, accuracy := 88, resource := 100, streaming := false,
           diarization := true, languages := 1,
           model_names := ["moss-transcribe-diarize"] }
  else
    none

/-- The key order of the `ENGINE_CAPABILITIES` dict (Python dicts preserve
insertion order; `list(self.ENGINE_CAPABILITIES.keys())`). -/
def engineCapabilityKeys : List String :=
  ["nano-2512", "paraformer-zh", "sensevoice", "moss"]

/-- Weight triple: the values of one `SCENARIO_WEIGHTS` entry. -/
structure Weights where
  latency : ℚ
  accuracy : ℚ
  resource : ℚ
deriving DecidableEq, Repr

/-- The table `EngineSelector.SCENARIO_WEIGHTS` (total on `Scenario`, as in the dict). -/
def SCENARIO_WEIGHTS : Scenario → Weights
  | Scenario.REALTIME => { latency := 0.5, accuracy := 0.3, resource := 0.2 }
  | Scenario.TRANSCRIPTION => { latency := 0.2, accuracy := 0.6, resource := 0.2 }
  | Scenario.MEETING => { latency := 0.3, accuracy := 0.4, resource := 0.3 }
  | Scenario.MULTILINGUAL => { latency := 0.3, accuracy := 0.4, resource := 0.3 }
  | Scenario.COMMAND => { latency := 0.6, accuracy := 0.3, resource := 0.1 }
  | Scenario.GENERAL => { latency := 0.3, accuracy := 0.4, resource := 0.3 }

/-- The table `EngineSelector.FALLBACK_CHAIN`, as a lookup function. -/
def FALLBACK_CHAIN (engine : String) : Option (List String) :=
  if engine = "nano-2512" then some ["paraformer-zh", "moss"]
  else if engine = "paraformer-zh" then some ["sensevoice", "moss"]
  else if engine = "sensevoice" then some ["paraformer-zh", "moss"]
  else if engine = "moss" then some ["paraformer-zh"]
  else none

/-- The expression `self.FALLBACK_CHAIN.get(best_engine, ['moss'])[0]` from `select`. Every
chain in the table is non-empty, so indexing `[0]` is total here; an empty
chain value (unreachable) is mapped to `""`. -/
def fallbackFirst (engine : String) : String :=
  ((FALLBACK_CHAIN engine).getD ["moss"]).headD ""

/-- The method `EngineSelector._get_priority_weights`. -/
def getPriorityWeights (priority : String) : Weights :=
  if priority = "latency" then { latency := 0.6, accuracy := 0.3, resource := 0.1 }
  else if priority = "accuracy" then { latency := 0.2, accuracy := 0.7, resource := 0.1 }
  else { latency := 0.4, accuracy := 0.4, resource := 0.2 }

/-- The method `EngineSelector.detect_scenario`: ordered rules, first match wins. -/
def detect_scenario (context : AudioContext) : Scenario :=
  if context.is_streaming then Scenario.REALTIME
  else if context.language_hint = "en" ∨ context.language_hint = "multi" then
    Scenario.MULTILINGUAL
  else if context.duration_seconds < 5 ∧ context.priority = "latency" then
    Scenario.COMMAND
  else if context.estimated_speakers > 1 then Scenario.MEETING
  else if context.duration_seconds > 60 ∧ context.priority = "accuracy" then
    Scenario.TRANSCRIPTION
  else Scenario.GENERAL

/-- The method `EngineSelector._score_engine`. Here `capabilities.get(engine)` gives the
empty dict for unknown engines, so each field access mirrors the per-call-site
`.get` default of the source (`latency`/`accuracy`/`resource` default 0,
`streaming`/`diarization` default false, `languages` default 1 in the
MULTILINGUAL branch and 0 in the zh branch, `model_names` default `[]`). -/
def score_engine (engine : String) (scenario : Scenario) (context : AudioContext)
    (weights : Weights) : EngineScore :=
  let capabilities := ENGINE_CAPABILITIES engine
  let latency0 : ℚ := (capabilities.map (·.latency)).getD 0
  let accuracy0 : ℚ := (capabilities.map (·.accuracy)).getD 0
  let resource_score : ℚ := (capabilities.map (·.resource)).getD 0
  let streaming : Bool := (capabilities.map (·.streaming)).getD false
  let diarization : Bool := (capabilities.map (·.diarization)).getD false
  let model_names : List String := (capabilities.map (·.model_names)).getD []
  -- REALTIME adjustment
  let latencyRt : ℚ × List String :=
    if scenario = Scenario.REALTIME then
      if ¬ streaming then (latency0 * 0.1, ["不支持流式输入"])
      else (latency0, ["原生流式支持，低延迟"])
    else (latency0, [])
  let latency_score := latencyRt.1
  -- MEETING adjustment
  let accuracyMt : ℚ × List String :=
    if scenario = Scenario.MEETING then
      if ¬ diarization then (accuracy0 * 0.5, ["不支持说话人分离"])
      else (accuracy0, ["支持说话人分离"])
    else (accuracy0, [])
  -- MULTILINGUAL adjustment
  let accuracyMl : ℚ × List String :=
    if scenario = Scenario.MULTILINGUAL then
      let lang_count : ℤ := (capabilities.map (·.languages)).getD 1
      if lang_count < 5 then
        (accuracyMt.1 * 0.7, ["仅支持 " ++ toString lang_count ++ " 种语言"])
      else (accuracyMt.1, ["支持 " ++ toString lang_count ++ " 种语言"])
    else (accuracyMt.1, [])
  let transcriptionReasons : List String :=
    if scenario = Scenario.TRANSCRIPTION ∧ accuracy0 ≥ 90 then ["高精度模型"] else []
  let commandReasons : List String :=
    if scenario = Scenario.COMMAND ∧ latency0 ≥ 80 then ["低延迟响应"] else []
  -- language-specific adjustment
  let accuracyZh : ℚ × List String :=
    if context.language_hint = "zh" ∧ ((capabilities.map (·.languages)).getD 0) ≥ 1 then
      (accuracyMl.1 * 1.1, ["中文优化"])
    else (accuracyMl.1, [])
  let accuracyEn : ℚ × List String :=
    if context.language_hint = "en" ∧
        ("en" ∈ model_names ∨ "paraformer-en" ∈ model_names) then
      (accuracyZh.1 * 1.1, ["英文支持"])
    else (accuracyZh.1, [])
  let accuracy_score := accuracyEn.1
  let total_score :=
    latency_score * weights.latency + accuracy_score * weights.accuracy +
      resource_score * weights.resource
  { engine_name := engine
    total_score := total_score
    latency_score := latency_score
    accuracy_score := accuracy_score
    resource_score := resource_score
    feature_score := 0
    reasons := latencyRt.2 ++ accuracyMt.2 ++ accuracyMl.2 ++ transcriptionReasons ++
      commandReasons ++ accuracyZh.2 ++ accuracyEn.2 }

/-- The constructor `EngineSelector.__init__`: the `_available_engines` field — either all
registry keys (when `available_engines` is `None`) or the supplied list
filtered to registry members, preserving order. -/
def selectorAvailable (available_engines : Option (List String)) : List String :=
  match available_engines with
  | none => engineCapabilityKeys
  | some l => l.filter (fun e => (ENGINE_CAPABILITIES e).isSome)

/-- Weight resolution at the top of `select`: `if priority and priority !=
'auto'` (a `None` or empty-string priority is falsy in Python). -/
def resolveWeights (scenario : Scenario) (priority : Option String) : Weights :=
  match priority with
  | some p => if p ≠ "" ∧ p ≠ "auto" then getPriorityWeights p else SCENARIO_WEIGHTS scenario
  | none => SCENARIO_WEIGHTS scenario

/-- The descending-total-score ordering used by `scores.sort(key=lambda x:
x[1].total_score, reverse=True)`. -/
def scoreDesc (a b : String × EngineScore) : Prop :=
  b.2.total_score ≤ a.2.total_score

instance : DecidableRel scoreDesc :=
  fun a b => inferInstanceAs (Decidable (b.2.total_score ≤ a.2.total_score))

instance : IsTotal (String × EngineScore) scoreDesc :=
  ⟨fun a b => le_total b.2.total_score a.2.total_score⟩

instance : IsTrans (String × EngineScore) scoreDesc :=
  ⟨fun _ _ _ hab hbc => le_trans hbc hab⟩

/-- The scored-and-sorted candidate list built inside `select`: each available
engine is scored, then `scores.sort(key=lambda x: x[1].total_score,
reverse=True)` — Python's stable sort, descending on the total score. A
stable sort under a total preorder has a unique output (sorted, with tied
elements in their original order), so it is modelled by the stable
`List.insertionSort` under `scoreDesc`. -/
def rankedScores (availableEngines : List String) (scenario : Scenario)
    (context : AudioContext) (weights : Weights) : List (String × EngineScore) :=
  (availableEngines.map (fun e => (e, score_engine e scenario context weights))).insertionSort
    scoreDesc

/-- The tail of `EngineSelector.select` after the sort: the empty-candidate
default result (lines 185-194 of selector.py) or the best-engine result with
fallback, confidence `max(0.0, min(1.0, (best - second) / 100))` and up to
three alternates (lines 196-214). -/
def selectFromRanked (scenario : Scenario) (ranked : List (String × EngineScore)) :
    SelectionResult :=
  match ranked with
  | [] =>
      { recommended_engine := "paraformer-zh"
        fallback_engine := "moss"
        scenario := Scenario.GENERAL
        confidence := 0
        score := { engine_name := "none" }
        alternatives := [] }
  | best :: rest =>
      { recommended_engine := best.1
        fallback_engine := fallbackFirst best.1
        scenario := scenario
        confidence :=
          match rest with
          | [] => 1
          | second :: _ => max 0 (min 1 ((best.2.total_score - second.2.total_score) / 100))
        score := best.2
        alternatives := (rest.take 3).map Prod.fst }

/-- The method `EngineSelector.select`, for a selector whose `_available_engines` field
is `availableEngines`. -/
def select (availableEngines : List String) (context : AudioContext)
    (priority : Option String) : SelectionResult :=
  selectFromRanked (detect_scenario context)
    (rankedScores availableEngines (detect_scenario context) context
      (resolveWeights (detect_scenario context) priority))

/-- The composition `EngineSelector(available_engines).select(context, priority)`. -/
def selectorSelect (available_engines : Option (List String)) (context : AudioContext)
    (priority : Option String) : SelectionResult :=
  select (selectorAvailable available_engines) context priority

/-! ### Factory (`src/asr/factory.py`) -/

/-- The keys of `ASRClientFactory._engines`, in registration order
(`get_available_engines`). -/
def factoryEngines : List String :=
  ["moss", "funasr", "nano-2512", "nano-mlt"]

/-- A constructed ASR client instance: the engine it was created as and the
value of its `is_available` property. The actual engine classes are external
collaborators; construction outcomes are supplied by an oracle. -/
structure ClientInst where
  engine : String
  available : Bool
deriving DecidableEq, Repr

/-- Keyword arguments accepted by `create_with_fallback` (each field is
`none` when the corresponding key is absent from `**kwargs`). -/
structure Kwargs where
  api_key : Option String := none
  model : Option String := none
  funasr_model : Option String := none
  device : Option String := none
  funasr_device : Option String := none
  nano_device : Option String := none
  enable_diarization : Option Bool := none
deriving DecidableEq, Repr

/-- The parameter dictionary handed to one engine constructor (fields absent
from the dict are `none`; the `raw` field carries a pass-through of the
generic kwargs when no translation applies). -/
structure CParams where
  api_key : Option String := none
  model : Option String := none
  device : Option String := none
  enable_diarization : Option Bool := none
  raw : Option Kwargs := none
deriving DecidableEq, Repr

/-- Python's `a or b` for `a = kwargs.get(k)`: `None` and `""` are falsy. -/
def pyOr (a : Option String) (b : String) : String :=
  match a with
  | some s => if s = "" then b else s
  | none => b

/-- A construction oracle: what each engine constructor does when called with
given parameters (`Except.error` models a raised exception). -/
def Construct := String → CParams → Except String ClientInst

/-- The classmethod `ASRClientFactory.create`: raises `ValueError` on an unregistered engine
name, otherwise invokes the engine constructor. -/
def createClient (construct : Construct) (engine : String) (params : CParams) :
    Except String ClientInst :=
  if factoryEngines.contains engine then construct engine params
  else Except.error ("Unknown ASR engine: " ++ engine)

/-- The `fallback_kwargs` translation at the top of `create_with_fallback`. -/
def fallbackParams (fallback_engine : String) (kwargs : Kwargs) : CParams :=
  if fallback_engine = "moss" then
    { api_key := some (kwargs.api_key.getD "") }
  else if fallback_engine = "funasr" then
    { model := some (pyOr kwargs.model (kwargs.funasr_model.getD "paraformer-zh"))
      device := some (pyOr kwargs.device (kwargs.funasr_device.getD "cpu")) }
  else
    { raw := some kwargs }

/-- The `primary_kwargs` translation inside `create_with_fallback`. -/
def primaryParams (primary_engine : String) (kwargs : Kwargs) : CParams :=
  if primary_engine = "funasr" then
    { model := some (pyOr kwargs.model (kwargs.funasr_model.getD "paraformer-zh"))
      device := some (pyOr kwargs.device (kwargs.funasr_device.getD "cpu"))
      enable_diarization := some (kwargs.enable_diarization.getD false) }
  else if primary_engine = "nano-2512" ∨ primary_engine = "nano-mlt" then
    { model := some (pyOr kwargs.model primary_engine)
      device := some (pyOr kwargs.device (kwargs.nano_device.getD "cpu")) }
  else if primary_engine = "moss" then
    { api_key := some (kwargs.api_key.getD "") }
  else
    { raw := some kwargs }

/-- The primary-engine attempt in `create_with_fallback`: `some client` when
construction succeeded and the client reports itself available (the early
`return client`); `none` when construction raised (the exception is caught
and logged) or the constructed instance is unavailable. -/
def primaryAttemptResult (construct : Construct) (primary_engine : String)
    (kwargs : Kwargs) : Option ClientInst :=
  match createClient construct primary_engine (primaryParams primary_engine kwargs) with
  | Except.ok client => if client.available then some client else none
  | Except.error _ => none

/-- The classmethod `ASRClientFactory.create_with_fallback`. The primary attempt's exception
is caught (and logged); the fallback section runs only for certain primary
engines, and only recognises `moss`/`funasr` fallback targets; a fallback
construction exception propagates uncaught. -/
def createWithFallback (construct : Construct) (primary_engine : String)
    (fallback_engine : String) (kwargs : Kwargs) : Except String ClientInst :=
  match primaryAttemptResult construct primary_engine kwargs with
  | some client => Except.ok client
  | none =>
    if primary_engine = "funasr" ∨ primary_engine = "nano-2512" ∨
        primary_engine = "nano-mlt" then
      if fallback_engine = "moss" then
        if ((fallbackParams fallback_engine kwargs).api_key.getD "") = "" then
          Except.error "无法回退到 MOSS：缺少 API Key"
        else createClient construct "moss" (fallbackParams fallback_engine kwargs)
      else if fallback_engine = "funasr" then
        createClient construct "funasr" (fallbackParams fallback_engine kwargs)
      else Except.error ("无法初始化 " ++ primary_engine ++ "，且无回退选项")
    else Except.error ("无法初始化 " ++ primary_engine ++ "，且无回退选项")

/-- The `SelectionResult` computed inside `ASRClientFactory.create_smart`:
a selector built over the factory's registered engine names, queried with
the given context and no explicit priority. -/
def createSmartSelection (context : AudioContext) : SelectionResult :=
  selectorSelect (some factoryEngines) context none

/-! ### Spec-side classifier (for the refinement claim about
`detect_scenario`) -/

/-- The scenario classifier exactly as §4.2 of the spec words it: six rules
evaluated in order, first match wins. Written from the spec for comparison
with `detect_scenario` (which is written from the source). -/
def classifySpec (context : AudioContext) : Scenario :=
  if context.is_streaming = true then Scenario.REALTIME
  else if context.language_hint ∈ ["en", "multi"] then Scenario.MULTILINGUAL
  else if context.duration_seconds < 5 ∧ context.priority = "latency" then
    Scenario.COMMAND
  else if context.estimated_speakers > 1 then Scenario.MEETING
  else if context.duration_seconds > 60 ∧ context.priority = "accuracy" then
    Scenario.TRANSCRIPTION
  else Scenario.GENERAL

/-! ### Helper lemmas -/

/-- Every fallback chain starts with an engine different from its key, and
the default chain `['moss']` is only reached for non-keys, so the resolved
fallback never equals its argument. -/
theorem fallbackFirst_ne (s : String) : fallbackFirst s ≠ s := by
  by_cases h1 : s = "nano-2512"
  · subst h1; decide
  · by_cases h2 : s = "paraformer-zh"
    · subst h2; decide
    · by_cases h3 : s = "sensevoice"
      · subst h3; decide
      · by_cases h4 : s = "moss"
        · subst h4; decide
        · simp only [fallbackFirst, FALLBACK_CHAIN, h1, h2, h3, h4, if_false,
            Option.getD_none, List.headD_cons]
          exact fun h => h4 h.symm

/-- The resolved fallback of any engine name is a registry member. -/
theorem fallbackFirst_registered (s : String) :
    (ENGINE_CAPABILITIES (fallbackFirst s)).isSome = true := by
  by_cases h1 : s = "nano-2512"
  · subst h1; decide
  · by_cases h2 : s = "paraformer-zh"
    · subst h2; decide
    · by_cases h3 : s = "sensevoice"
      · subst h3; decide
      · by_cases h4 : s = "moss"
        · subst h4; decide
        · simp only [fallbackFirst, FALLBACK_CHAIN, h1, h2, h3, h4, if_false,
            Option.getD_none, List.headD_cons]
          decide

/-- Every engine in a selector's `_available_engines` list has a registry
entry (the constructor either takes the registry keys or filters by them). -/
theorem mem_selectorAvailable {e : String} {opt : Option (List String)}
    (h : e ∈ selectorAvailable opt) : (ENGINE_CAPABILITIES e).isSome = true := by
  cases opt with
  | none =>
      simp only [selectorAvailable, engineCapabilityKeys, List.mem_cons,
        List.not_mem_nil, or_false] at h
      rcases h with h | h | h | h <;> subst h <;> decide
  | some l => exact (List.mem_filter.mp h).2

/-- Every entry of the ranked list is a scored available engine. -/
theorem mem_rankedScores {pr : String × EngineScore} {l : List String}
    {scenario : Scenario} {context : AudioContext} {w : Weights}
    (h : pr ∈ rankedScores l scenario context w) :
    pr.1 ∈ l ∧ pr.2 = score_engine pr.1 scenario context w := by
  unfold rankedScores at h
  rw [List.mem_insertionSort] at h
  obtain ⟨e, he, heq⟩ := List.mem_map.mp h
  cases heq
  exact ⟨he, rfl⟩

/-- The ranked list has one entry per available engine. -/
theorem length_rankedScores (l : List String) (scenario : Scenario)
    (context : AudioContext) (w : Weights) :
    (rankedScores l scenario context w).length = l.length := by
  unfold rankedScores
  rw [List.length_insertionSort, List.length_map]

/-! ### Claim theorems -/

/-- C2: for every candidate list (or `None`) passed to the selector and every
audio context and priority, each engine identifier in the returned
`SelectionResult` — the recommended engine, the fallback engine, and every
alternative — has an entry in `ENGINE_CAPABILITIES`; the selector never
recommends or lists an unregistered engine. -/
theorem select_result_engines_registered (opt : Option (List String))
    (context : AudioContext) (priority : Option String) :
    (ENGINE_CAPABILITIES (selectorSelect opt context priority).recommended_engine).isSome = true ∧
    (ENGINE_CAPABILITIES (selectorSelect opt context priority).fallback_engine).isSome = true ∧
    ((selectorSelect opt context priority).alternatives.all
      (fun e => (ENGINE_CAPABILITIES e).isSome)) = true := by
  unfold selectorSelect select
  cases h : rankedScores (selectorAvailable opt) (detect_scenario context) context
      (resolveWeights (detect_scenario context) priority) with
  | nil => exact ⟨rfl, rfl, rfl⟩
  | cons best rest =>
    refine ⟨?_, fallbackFirst_registered best.1, ?_⟩
    · have hb : best ∈ rankedScores (selectorAvailable opt) (detect_scenario context) context
          (resolveWeights (detect_scenario context) priority) := by
        rw [h]; exact List.mem_cons_self _ _
      exact mem_selectorAvailable (mem_rankedScores hb).1
    · rw [List.all_eq_true]
      intro e he
      simp only [selectFromRanked, List.mem_map] at he
      obtain ⟨q, hq, rfl⟩ := he
      have hq' : q ∈ rankedScores (selectorAvailable opt) (detect_scenario context) context
          (resolveWeights (detect_scenario context) priority) := by
        rw [h]; exact List.mem_cons_of_mem _ (List.mem_of_mem_take hq)
      exact mem_selectorAvailable (mem_rankedScores hq').1

/-- C6: `detect_scenario` is a total function agreeing everywhere with the
six spec rules evaluated in order with first match winning, and in
particular a streaming context with language hint "multi" classifies as
REALTIME, not MULTILINGUAL. -/
theorem detect_scenario_implements_spec_rules :
    (∀ context : AudioContext, detect_scenario context = classifySpec context) ∧
    (∀ (path : Option String) (d : ℚ) (n : ℤ) (pr : String),
      detect_scenario { audio_path := path, duration_seconds := d, estimated_speakers := n,
                        language_hint := "multi", is_streaming := true, priority := pr } =
        Scenario.REALTIME) := by
  constructor
  · intro context
    simp [detect_scenario, classifySpec]
  · intro path d n pr
    rfl

/-- C7: the confidence of every selection lies in `[0, 1]`; it is exactly `1`
when exactly one scored candidate exists, and exactly
`max 0 (min 1 ((top - second) / 100))` when at least two exist (and `0` for
the degraded empty-candidate result). -/
theorem select_confidence_bounds_and_formula (opt : Option (List String))
    (context : AudioContext) (priority : Option String) :
    0 ≤ (selectorSelect opt context priority).confidence ∧
    (selectorSelect opt context priority).confidence ≤ 1 ∧
    (selectorSelect opt context priority).confidence =
      (match rankedScores (selectorAvailable opt) (detect_scenario context) context
          (resolveWeights (detect_scenario context) priority) with
        | [] => 0
        | [_] => 1
        | top :: second :: _ =>
            max 0 (min 1 ((top.2.total_score - second.2.total_score) / 100))) := by
  unfold selectorSelect select
  cases h : rankedScores (selectorAvailable opt) (detect_scenario context) context
      (resolveWeights (detect_scenario context) priority) with
  | nil => exact ⟨le_refl 0, zero_le_one, rfl⟩
  | cons best rest =>
    cases rest with
    | nil => exact ⟨zero_le_one, le_refl 1, rfl⟩
    | cons second tail =>
      refine ⟨?_, ?_, rfl⟩
      · simp only [selectFromRanked]
        exact le_max_left 0 _
      · simp only [selectFromRanked]
        exact max_le (by norm_num) (min_le_left 1 _)

/-- C8: whenever the selector's filtered candidate set is empty, `select`
returns the degraded result — default engine `paraformer-zh`, fallback
`moss`, scenario GENERAL, confidence 0 and no alternates — and, being a
total function, never raises. -/
theorem select_empty_candidates_degraded (context : AudioContext)
    (priority : Option String) (candidates : List String)
    (h : selectorAvailable (some candidates) = []) :
    selectorSelect (some candidates) context priority =
      { recommended_engine := "paraformer-zh"
        fallback_engine := "moss"
        scenario := Scenario.GENERAL
        confidence := 0
        score := { engine_name := "none" }
        alternatives := [] } := by
  unfold selectorSelect select
  rw [h]
  rfl

/-- Witness for C8 at the empty candidate list and the default context. -/
theorem select_empty_candidates_degraded_witness :
    selectorAvailable (some ([] : List String)) = [] ∧
    selectorSelect (some ([] : List String)) {} none =
      { recommended_engine := "paraformer-zh"
        fallback_engine := "moss"
        scenario := Scenario.GENERAL
        confidence := 0
        score := { engine_name := "none" }
        alternatives := [] } :=
  ⟨rfl, select_empty_candidates_degraded {} none [] rfl⟩

/-- C9: the fallback engine of every selection differs from the recommended
engine (unconditionally — in particular whenever at least two distinct
engines are registered). -/
theorem select_fallback_ne_recommended (opt : Option (List String))
    (context : AudioContext) (priority : Option String) :
    (selectorSelect opt context priority).fallback_engine ≠
      (selectorSelect opt context priority).recommended_engine := by
  unfold selectorSelect select
  cases h : rankedScores (selectorAvailable opt) (detect_scenario context) context
      (resolveWeights (detect_scenario context) priority) with
  | nil =>
      simp only [selectFromRanked]
      decide
  | cons best rest => exact fallbackFirst_ne best.1

/-- C10: the factory's candidate list `['moss', 'funasr', 'nano-2512',
'nano-mlt']` is filtered by the selector's capability table down to exactly
`['moss', 'nano-2512']`, so `create_smart`'s selection always recommends
either `nano-2512` or `moss` — never `paraformer-zh` or `sensevoice`. -/
theorem createSmart_recommends_intersection (context : AudioContext) :
    selectorAvailable (some factoryEngines) = ["moss", "nano-2512"] ∧
    ((createSmartSelection context).recommended_engine = "nano-2512" ∨
      (createSmartSelection context).recommended_engine = "moss") := by
  refine ⟨by decide, ?_⟩
  unfold createSmartSelection selectorSelect select
  cases h : rankedScores (selectorAvailable (some factoryEngines)) (detect_scenario context)
      context (resolveWeights (detect_scenario context) none) with
  | nil =>
      exfalso
      have hlen := congrArg List.length h
      rw [length_rankedScores] at hlen
      revert hlen
      decide
  | cons best rest =>
      have hb : best ∈ rankedScores (selectorAvailable (some factoryEngines))
          (detect_scenario context) context (resolveWeights (detect_scenario context) none) := by
        rw [h]; exact List.mem_cons_self _ _
      have h1 : best.1 ∈ selectorAvailable (some factoryEngines) := (mem_rankedScores hb).1
      have : best.1 = "moss" ∨ best.1 = "nano-2512" := by
        have hav : selectorAvailable (some factoryEngines) = ["moss", "nano-2512"] := by decide
        rw [hav] at h1
        simpa using h1
      rcases this with h | h
      · exact Or.inr h
      · exact Or.inl h

/-- The construction oracle for the C1 counterexample: `funasr` constructs
an available client; construction of every other engine raises. -/
def cexConstruct : Construct := fun e _ =>
  if e = "funasr" then Except.ok { engine := "funasr", available := true }
  else Except.error "init failed"

/-- C1 counterexample: with primary `moss` whose construction fails and
designated fallback `funasr` perfectly constructible, `create_with_fallback`
never attempts the fallback: it fails with the no-fallback-option error,
contradicting the claim that for every primary/fallback pair the fallback is
attempted and the operation fails only if the fallback also fails. -/
theorem create_with_fallback_counterexample :
    createClient cexConstruct "funasr" (fallbackParams "funasr" {}) =
      Except.ok { engine := "funasr", available := true } ∧
    createWithFallback cexConstruct "moss" "funasr" {} =
      Except.error "无法初始化 moss，且无回退选项" := by
  constructor <;> rfl

/-- C1 amended: only when the primary engine is one of `funasr`, `nano-2512`,
`nano-mlt` and the designated fallback is `funasr`, or `moss` with a
non-empty API key, does a failed or unavailable primary lead to constructing
the fallback; the overall outcome is then exactly the fallback construction's
outcome (whose own failure propagates). For any other primary (e.g. `moss`)
or fallback id the operation fails without attempting the fallback. -/
theorem create_with_fallback_amended (construct : Construct) (primary fallback : String)
    (kwargs : Kwargs)
    (hp : primary = "funasr" ∨ primary = "nano-2512" ∨ primary = "nano-mlt")
    (hf : fallback = "funasr" ∨ (fallback = "moss" ∧ kwargs.api_key.getD "" ≠ ""))
    (hfail : primaryAttemptResult construct primary kwargs = none) :
    createWithFallback construct primary fallback kwargs =
      createClient construct fallback (fallbackParams fallback kwargs) := by
  unfold createWithFallback
  rw [hfail]
  rcases hf with hf | ⟨hf, hkey⟩
  · subst hf
    rcases hp with hp | hp | hp <;> subst hp <;> simp [fallbackParams]
  · subst hf
    rcases hp with hp | hp | hp <;> subst hp <;> simp [fallbackParams, hkey]

/-- The construction oracle for the C1 witness: `nano-2512` raises; every
other engine constructs an available client. -/
def fbWitnessConstruct : Construct := fun e _ =>
  if e = "nano-2512" then Except.error "model missing"
  else Except.ok { engine := e, available := true }

/-- Witness for C1 (amended): a failing `nano-2512` primary with `funasr`
fallback resolves to the fallback construction's outcome. -/
theorem create_with_fallback_amended_witness :
    createWithFallback fbWitnessConstruct "nano-2512" "funasr" {} =
      createClient fbWitnessConstruct "funasr" (fallbackParams "funasr" {}) :=
  create_with_fallback_amended fbWitnessConstruct "nano-2512" "funasr" {}
    (Or.inr (Or.inl rfl)) (Or.inl rfl) rfl

/-- A MEETING-scenario context under which, with the `balanced` priority
override, `nano-2512` and `paraformer-zh` receive exactly equal total scores
(both 68). -/
def ctxMeetingTie : AudioContext :=
  { duration_seconds := 10, estimated_speakers := 2, language_hint := "auto",
    is_streaming := false, priority := "balanced" }

/-- C3 counterexample: under `ctxMeetingTie` with the `balanced` override,
`nano-2512` and `paraformer-zh` tie on total score; `nano-2512` is the
smaller engine identifier, yet supplying the candidates as
`[paraformer-zh, nano-2512]` recommends `paraformer-zh` while the reversed
supply order recommends `nano-2512` — the tie is resolved by supply order,
not by ascending engine identifier, and the ranking is not independent of
the order in which candidates were supplied. -/
theorem select_tiebreak_counterexample :
    (score_engine "nano-2512" (detect_scenario ctxMeetingTie) ctxMeetingTie
        (resolveWeights (detect_scenario ctxMeetingTie) (some "balanced"))).total_score =
      (score_engine "paraformer-zh" (detect_scenario ctxMeetingTie) ctxMeetingTie
        (resolveWeights (detect_scenario ctxMeetingTie) (some "balanced"))).total_score ∧
    "nano-2512" < "paraformer-zh" ∧
    (select ["paraformer-zh", "nano-2512"] ctxMeetingTie (some "balanced")).recommended_engine =
      "paraformer-zh" ∧
    (select ["nano-2512", "paraformer-zh"] ctxMeetingTie (some "balanced")).recommended_engine =
      "nano-2512" := by
  refine ⟨?_, ?_, ?_, ?_⟩
  · simp [score_engine, ENGINE_CAPABILITIES, resolveWeights, getPriorityWeights,
      detect_scenario, ctxMeetingTie]
    norm_num
  · rw [String.lt_iff_toList_lt]
    decide
  · simp [select, selectFromRanked, rankedScores, selectorAvailable, score_engine,
      ENGINE_CAPABILITIES, getPriorityWeights, resolveWeights, detect_scenario,
      scoreDesc, ctxMeetingTie]
    norm_num
  · simp [select, selectFromRanked, rankedScores, selectorAvailable, score_engine,
      ENGINE_CAPABILITIES, getPriorityWeights, resolveWeights, detect_scenario,
      scoreDesc, ctxMeetingTie]
    norm_num

/-- C3 amended: the ranked candidate list is sorted by total score
descending, and the sort is stable — whenever `a` appears before `b` among
the scored candidates and `b`'s total does not exceed `a`'s (in particular
whenever the two totals are equal), `a` stays before `b` in the ranking.
Tied candidates therefore keep their supply order, and the ranking of tied
candidates depends on that order rather than on the engine identifier. -/
theorem rankedScores_sorted_desc_and_stable (l : List String) (scenario : Scenario)
    (context : AudioContext) (w : Weights) :
    (rankedScores l scenario context w).Pairwise
      (fun a b => b.2.total_score ≤ a.2.total_score) ∧
    (∀ a b : String × EngineScore, b.2.total_score ≤ a.2.total_score →
      [a, b].Sublist (l.map (fun e => (e, score_engine e scenario context w))) →
      [a, b].Sublist (rankedScores l scenario context w)) := by
  constructor
  · exact List.sorted_insertionSort scoreDesc _
  · intro a b hab hsub
    exact List.pair_sublist_insertionSort hab hsub

/-- Witness for C3 (amended), at the tie context: the tied pair supplied as
`[paraformer-zh, nano-2512]` survives in that order in the ranking. -/
theorem rankedScores_sorted_desc_and_stable_witness :
    [("paraformer-zh", score_engine "paraformer-zh" Scenario.MEETING ctxMeetingTie
        (getPriorityWeights "balanced")),
     ("nano-2512", score_engine "nano-2512" Scenario.MEETING ctxMeetingTie
        (getPriorityWeights "balanced"))].Sublist
      (rankedScores ["paraformer-zh", "nano-2512"] Scenario.MEETING ctxMeetingTie
        (getPriorityWeights "balanced")) :=
  (rankedScores_sorted_desc_and_stable ["paraformer-zh", "nano-2512"] Scenario.MEETING
      ctxMeetingTie (getPriorityWeights "balanced")).2 _ _
    (by simp [score_engine, ENGINE_CAPABILITIES, getPriorityWeights, ctxMeetingTie]
        norm_num)
    (List.Sublist.refl _)

/-- C4 counterexample: scoring `nano-2512` (latency 95, accuracy 80,
resource 70, streaming) under the REALTIME weights with a default context —
no penalties, no language bonus — yields `95*0.5 + 80*0.3 + 70*0.2`, which
equals `85.5`, not the `95.5` stated by the claim. -/
theorem scoring_example_counterexample :
    (score_engine "nano-2512" Scenario.REALTIME {}
      (SCENARIO_WEIGHTS Scenario.REALTIME)).total_score =
      95 * (0.5 : ℚ) + 80 * 0.3 + 70 * 0.2 ∧
    (score_engine "nano-2512" Scenario.REALTIME {}
      (SCENARIO_WEIGHTS Scenario.REALTIME)).total_score ≠ 95.5 := by
  constructor <;>
    · simp [score_engine, ENGINE_CAPABILITIES, SCENARIO_WEIGHTS]
      rw [if_neg (show ¬("auto" = "zh") by decide)]
      norm_num

/-- C4 amended: the same scoring yields every component unpenalised and the
total `95*0.5 + 80*0.3 + 70*0.2 = 85.5`. -/
theorem scoring_example_amended :
    SCENARIO_WEIGHTS Scenario.REALTIME = { latency := 0.5, accuracy := 0.3, resource := 0.2 } ∧
    (score_engine "nano-2512" Scenario.REALTIME {}
      (SCENARIO_WEIGHTS Scenario.REALTIME)).latency_score = 95 ∧
    (score_engine "nano-2512" Scenario.REALTIME {}
      (SCENARIO_WEIGHTS Scenario.REALTIME)).accuracy_score = 80 ∧
    (score_engine "nano-2512" Scenario.REALTIME {}
      (SCENARIO_WEIGHTS Scenario.REALTIME)).resource_score = 70 ∧
    (score_engine "nano-2512" Scenario.REALTIME {}
      (SCENARIO_WEIGHTS Scenario.REALTIME)).total_score = 85.5 ∧
    (85.5 : ℚ) = 95 * 0.5 + 80 * 0.3 + 70 * 0.2 := by
  refine ⟨rfl, ?_, ?_, ?_, ?_, by norm_num⟩ <;>
    · simp [score_engine, ENGINE_CAPABILITIES, SCENARIO_WEIGHTS]
      try rw [if_neg (show ¬("auto" = "zh") by decide)]
      try norm_num

/-- C5 counterexample: an engine id absent from the capability registry is
scored without any error — `_score_engine` returns an all-zero `EngineScore`
for it — and a selector constructed with only that unknown candidate
silently drops it instead of failing loudly. -/
theorem unknown_engine_counterexample :
    ENGINE_CAPABILITIES "whisper-x" = none ∧
    score_engine "whisper-x" Scenario.GENERAL {} (SCENARIO_WEIGHTS Scenario.GENERAL) =
      { engine_name := "whisper-x", total_score := 0, latency_score := 0,
        accuracy_score := 0, resource_score := 0, feature_score := 0, reasons := [] } ∧
    selectorAvailable (some ["whisper-x"]) = [] := by
  refine ⟨rfl, ?_, rfl⟩
  simp [score_engine, ENGINE_CAPABILITIES, SCENARIO_WEIGHTS]

/-- C5 amended: for every engine id with no registry entry, scoring is total
and yields zero component and total scores — a score, not an `UnknownEngine`
failure — and the selector constructor silently filters such ids from the
candidate list. -/
theorem unknown_engine_scores_zero (e : String) (scenario : Scenario)
    (context : AudioContext) (w : Weights) (h : ENGINE_CAPABILITIES e = none) :
    (score_engine e scenario context w).latency_score = 0 ∧
    (score_engine e scenario context w).accuracy_score = 0 ∧
    (score_engine e scenario context w).resource_score = 0 ∧
    (score_engine e scenario context w).total_score = 0 ∧
    selectorAvailable (some [e]) = [] := by
  cases scenario <;>
    · refine ⟨?_, ?_, ?_, ?_, ?_⟩ <;> simp [score_engine, selectorAvailable, h]

/-- Witness for C5 (amended) at the unregistered id `whisper-large`. -/
theorem unknown_engine_scores_zero_witness :
    ENGINE_CAPABILITIES "whisper-large" = none ∧
    (score_engine "whisper-large" Scenario.REALTIME {}
      (SCENARIO_WEIGHTS Scenario.REALTIME)).total_score = 0 :=
  ⟨rfl, (unknown_engine_scores_zero "whisper-large" Scenario.REALTIME {}
    (SCENARIO_WEIGHTS Scenario.REALTIME) rfl).2.2.2.1⟩

end Exomind
